import Mathlib

/-!
Shallow embedding of `src/drivers/counter/pcf85063a.c` (PCF85063A real-time
clock driver) together with the register-map constants of its header.

Machine bytes are modelled as `Nat` with the source's bit operations written
out (`&&&`, `|||`, `>>>`, `<<<`); the C `int` calendar fields are modelled as
`Nat`, which covers every input on which the source's arithmetic is defined
(left-shifting a negative `int` is undefined behaviour in C).  The two-wire
bus is the abstract interface of the spec (§6): an addressed read, an
addressed write, and an addressed masked read-modify-write that stores
`(old & ~mask) | (new & mask)`.  Driver operations are embedded as the list
of bus transactions they issue on their success path, plus pure result
functions; `applyOps` gives the effect of a transaction list on the register
file.
-/

/- ── Register-map constants, from pcf85063a.h ───────────────────────── -/

def PCF85063A_BCD_UPPER_SHIFT : Nat := 4
def PCF85063A_BCD_LOWER_MASK : Nat := 0x0f
def PCF85063A_BCD_UPPER_MASK : Nat := 0xf0
def PCF85063A_BCD_UPPER_MASK_SEC : Nat := 0x70

def PCF85063A_CTRL1 : Nat := 0x00
def PCF85063A_CTRL1_STOP : Nat := 0x20
def PCF85063A_CTRL1_CAP_SEL : Nat := 0x01

def PCF85063A_CTRL2 : Nat := 0x01
def PCF85063A_CTRL2_TF : Nat := 0x08

def PCF85063A_OFFSET : Nat := 0x02
def PCF85063A_OFFSET_MODE : Nat := 0x80
def PCF85063A_OFFSET_VALUE_MASK : Nat := 0x7f

def PCF85063A_SECONDS : Nat := 0x04
def PCF85063A_SECONDS_OS : Nat := 0x80
def PCF85063A_SECONDS_MASK : Nat := 0x7f

def PCF85063A_MINUTES_MASK : Nat := 0x7f
def PCF85063A_HOURS_MASK : Nat := 0x3f
def PCF85063A_DAYS_MASK : Nat := 0x3f
def PCF85063A_WEEKDAYS_MASK : Nat := 0x7
def PCF85063A_MONTHS_MASK : Nat := 0x1f

def PCF85063A_TIMER_VALUE : Nat := 0x10
def PCF85063A_TIMER_MODE : Nat := 0x11
def PCF85063A_TIMER_MODE_FREQ_MASK : Nat := 0x18
def PCF85063A_TIMER_MODE_FREQ_SHIFT : Nat := 3
def PCF85063A_TIMER_MODE_FREQ_1 : Nat := 0x2
def PCF85063A_TIMER_MODE_EN : Nat := 0x04
def PCF85063A_TIMER_MODE_INT_EN : Nat := 0x02
def PCF85063A_TIMER_MODE_INT_TI_TP : Nat := 0x01

/-- Zephyr errno value 5 (input/output error); the driver reports a
clock-integrity failure as its negation. -/
def eio_errno : Int := 5

/- ── Calendar codec ─────────────────────────────────────────────────── -/

/-- `struct tm` as used by the driver (the fields it touches).  C `int`
fields are modelled as `Nat` (see the header comment). -/
structure Tm where
  tm_sec : Nat
  tm_min : Nat
  tm_hour : Nat
  tm_mday : Nat
  tm_mon : Nat
  tm_year : Nat
  tm_wday : Nat
  tm_yday : Nat
  tm_isdst : Nat
deriving DecidableEq

/-- `yisleap` (pcf85063a.c lines 33-36): C int result, 1 for a leap year. -/
def yisleap (year : Nat) : Nat :=
  if (year % 4 == 0 && year % 100 != 0) || (year % 400 == 0) then 1 else 0

/-- The `days[2][12]` table of `get_yday` (lines 43-45): 0-based cumulative
day counts, row 0 non-leap, row 1 leap. -/
def days_table : List (List Nat) :=
  [[0, 31, 59, 90, 120, 151, 181, 212, 243, 273, 304, 334],
   [0, 31, 60, 91, 121, 152, 182, 213, 244, 274, 305, 335]]

/-- `get_yday` (lines 41-50).  For `day ≥ 1` the `Nat` subtraction agrees
with the source's `int` arithmetic (every claim stays in that range). -/
def get_yday (mon day year : Nat) : Nat :=
  (days_table.getD (yisleap year) []).getD mon 0 + day - 1

/-- The 7-byte register image `pcf85063a_set_time` builds and burst-writes
(lines 124-144): seconds, minutes, hours, days, weekdays, months, years. -/
def pcf85063a_set_time_raw (time : Tm) : List Nat :=
  [PCF85063A_SECONDS_MASK &&&
     (((time.tm_sec / 10) <<< PCF85063A_BCD_UPPER_SHIFT) + (time.tm_sec % 10)),
   PCF85063A_MINUTES_MASK &&&
     (((time.tm_min / 10) <<< PCF85063A_BCD_UPPER_SHIFT) + (time.tm_min % 10)),
   PCF85063A_HOURS_MASK &&&
     (((time.tm_hour / 10) <<< PCF85063A_BCD_UPPER_SHIFT) + (time.tm_hour % 10)),
   PCF85063A_DAYS_MASK &&&
     (((time.tm_mday / 10) <<< PCF85063A_BCD_UPPER_SHIFT) + (time.tm_mday % 10)),
   PCF85063A_WEEKDAYS_MASK &&& time.tm_wday,
   PCF85063A_MONTHS_MASK &&&
     (((time.tm_mon / 10) <<< PCF85063A_BCD_UPPER_SHIFT) + (time.tm_mon % 10)),
   (((time.tm_year % 100) / 10) <<< PCF85063A_BCD_UPPER_SHIFT) + ((time.tm_year % 100) % 10)]

/-- `pcf85063a_get_time` after a successful 7-byte burst read (lines
176-210): `raw` is the image the bus returned, `time` the caller's output
structure.  Returns the C return value and the output structure afterwards
(unchanged when the oscillator-stop flag aborts the decode). -/
def pcf85063a_get_time_c (raw : List Nat) (time : Tm) : Int × Tm :=
  let r0 := raw.getD 0 0
  if r0 &&& PCF85063A_SECONDS_OS ≠ 0 then
    (-eio_errno, time)
  else
    let sec := (r0 &&& PCF85063A_BCD_LOWER_MASK) +
      (((r0 &&& PCF85063A_BCD_UPPER_MASK_SEC) >>> PCF85063A_BCD_UPPER_SHIFT) * 10)
    let min := (raw.getD 1 0 &&& PCF85063A_BCD_LOWER_MASK) +
      (((raw.getD 1 0 &&& PCF85063A_BCD_UPPER_MASK) >>> PCF85063A_BCD_UPPER_SHIFT) * 10)
    let hour := (raw.getD 2 0 &&& PCF85063A_BCD_LOWER_MASK) +
      (((raw.getD 2 0 &&& PCF85063A_BCD_UPPER_MASK) >>> PCF85063A_BCD_UPPER_SHIFT) * 10)
    let mday := (raw.getD 3 0 &&& PCF85063A_BCD_LOWER_MASK) +
      (((raw.getD 3 0 &&& PCF85063A_BCD_UPPER_MASK) >>> PCF85063A_BCD_UPPER_SHIFT) * 10)
    let wday := (raw.getD 4 0 &&& PCF85063A_BCD_LOWER_MASK) +
      (((raw.getD 4 0 &&& PCF85063A_BCD_UPPER_MASK) >>> PCF85063A_BCD_UPPER_SHIFT) * 10)
    let mon := (raw.getD 5 0 &&& PCF85063A_BCD_LOWER_MASK) +
      (((raw.getD 5 0 &&& PCF85063A_BCD_UPPER_MASK) >>> PCF85063A_BCD_UPPER_SHIFT) * 10)
    let year := (raw.getD 6 0 &&& PCF85063A_BCD_LOWER_MASK) +
      (((raw.getD 6 0 &&& PCF85063A_BCD_UPPER_MASK) >>> PCF85063A_BCD_UPPER_SHIFT) * 10) + 100
    (0, { tm_sec := sec, tm_min := min, tm_hour := hour, tm_mday := mday,
          tm_mon := mon, tm_year := year, tm_wday := wday,
          tm_yday := get_yday mon mday (year + 1900), tm_isdst := 0 })

/- ── Register controller: bus transactions ──────────────────────────── -/

/-- One bus transaction of the spec's abstract bus interface (§6): an
addressed single-register read, write, or masked read-modify-write. -/
inductive BusOp where
  | readOp (addr : Nat)
  | writeOp (addr val : Nat)
  | rmwOp (addr mask val : Nat)
deriving DecidableEq

/-- Effect of one bus transaction on the register file; a masked
read-modify-write stores `(old & ~mask) | (val & mask)` (spec §6, the
contract of `i2c_reg_update_byte_dt`). -/
def applyOp (regs : Nat → Nat) : BusOp → (Nat → Nat)
  | .readOp _ => regs
  | .writeOp addr val => fun a => if a = addr then val else regs a
  | .rmwOp addr mask val =>
      fun a => if a = addr then (regs addr &&& (255 ^^^ mask)) ||| (val &&& mask)
               else regs a

/-- Effect of a transaction list, first transaction first. -/
def applyOps (ops : List BusOp) (regs : Nat → Nat) : Nat → Nat :=
  ops.foldl applyOp regs

/-- `pcf85063a_start` (lines 213-232): one masked read-modify-write of
control-1 writing 0 under the run/stop-bit mask. -/
def pcf85063a_start_ops : List BusOp :=
  [.rmwOp PCF85063A_CTRL1 PCF85063A_CTRL1_STOP 0]

/-- `pcf85063a_stop` (lines 234-253): one masked read-modify-write of
control-1 setting the run/stop bit under the same mask. -/
def pcf85063a_stop_ops : List BusOp :=
  [.rmwOp PCF85063A_CTRL1 PCF85063A_CTRL1_STOP PCF85063A_CTRL1_STOP]

/-- `pcf85063a_set_alarm` (lines 260-307), success path: clear the timer
flag in control-2, write the tick count (`(uint8_t)alarm_cfg->ticks`) to the
timer-value register, then one masked write of the timer-mode register
selecting the 1 Hz frequency and setting timer-enable and
interrupt-enable. -/
def pcf85063a_set_alarm_ops (ticks : Nat) : List BusOp :=
  [.rmwOp PCF85063A_CTRL2 PCF85063A_CTRL2_TF 0,
   .writeOp PCF85063A_TIMER_VALUE (ticks % 256),
   .rmwOp PCF85063A_TIMER_MODE
     (PCF85063A_TIMER_MODE_FREQ_MASK ||| PCF85063A_TIMER_MODE_EN |||
       PCF85063A_TIMER_MODE_INT_EN)
     ((PCF85063A_TIMER_MODE_FREQ_1 <<< PCF85063A_TIMER_MODE_FREQ_SHIFT) |||
       PCF85063A_TIMER_MODE_EN ||| PCF85063A_TIMER_MODE_INT_EN)]

/-- `pcf85063a_cancel_alarm` (lines 309-344), success path: clear the timer
flag in control-2, then masked-clear timer-enable, interrupt-enable and
interrupt-type in the timer-mode register. -/
def pcf85063a_cancel_alarm_ops : List BusOp :=
  [.rmwOp PCF85063A_CTRL2 PCF85063A_CTRL2_TF 0,
   .rmwOp PCF85063A_TIMER_MODE
     (PCF85063A_TIMER_MODE_EN ||| PCF85063A_TIMER_MODE_INT_EN |||
       PCF85063A_TIMER_MODE_INT_TI_TP) 0]

/-- `pcf85063a_get_pending_int` (lines 351-370), success path: the single
bus transaction it issues. -/
def pcf85063a_get_pending_int_ops : List BusOp :=
  [.readOp PCF85063A_CTRL2]

/-- `pcf85063a_get_pending_int` (lines 351-370), success path: its return
value given the register file the read observes. -/
def pcf85063a_get_pending_int (regs : Nat → Nat) : Nat :=
  if regs PCF85063A_CTRL2 &&& PCF85063A_CTRL2_TF ≠ 0 then 1 else 0

/-- `pcf85063a_get_pending_int` including the failing-read path (lines
358-369): on a bus error the C `return ret;` converts the negative errno to
the `uint32_t` return type, i.e. reduces it modulo 2^32. -/
def pcf85063a_get_pending_int_r (read_result : Except Int Nat) : Nat :=
  match read_result with
  | .error ret => (ret % (2 : Int) ^ 32).toNat
  | .ok reg => if reg &&& PCF85063A_CTRL2_TF ≠ 0 then 1 else 0

/- ── Spec-side reference definitions (for refinement claims) ────────── -/

/-- Decode of one BCD register image following the SPEC's §4.1 wording
(claim C4): lower nibble plus ten times the upper nibble under
field-specific upper masks — 7-bit overall mask for seconds and minutes,
6-bit for hours and days, 5-bit for months, weekday a raw 3-bit count. -/
def get_time_fields_spec (raw : List Nat) : Tm :=
  let sec := (raw.getD 0 0 &&& 0x0f) + (((raw.getD 0 0 &&& 0x70) >>> 4) * 10)
  let min := (raw.getD 1 0 &&& 0x0f) + (((raw.getD 1 0 &&& 0x70) >>> 4) * 10)
  let hour := (raw.getD 2 0 &&& 0x0f) + (((raw.getD 2 0 &&& 0x30) >>> 4) * 10)
  let mday := (raw.getD 3 0 &&& 0x0f) + (((raw.getD 3 0 &&& 0x30) >>> 4) * 10)
  let wday := raw.getD 4 0 &&& 0x07
  let mon := (raw.getD 5 0 &&& 0x0f) + (((raw.getD 5 0 &&& 0x10) >>> 4) * 10)
  let year := (raw.getD 6 0 &&& 0x0f) + (((raw.getD 6 0 &&& 0xf0) >>> 4) * 10) + 100
  { tm_sec := sec, tm_min := min, tm_hour := hour, tm_mday := mday,
    tm_mon := mon, tm_year := year, tm_wday := wday,
    tm_yday := get_yday mon mday (year + 1900), tm_isdst := 0 }

/-- Month lengths following the spec's reference calendar (claim C5):
0-based cumulative day counts are partial sums of these. -/
def month_lengths_spec (leap : Bool) : List Nat :=
  [31, if leap then 29 else 28, 31, 30, 31, 30, 31, 31, 30, 31, 30, 31]

/-- A concrete `struct tm` used as the caller's output buffer in witnesses
and counterexamples. -/
def tm0 : Tm :=
  { tm_sec := 0, tm_min := 0, tm_hour := 0, tm_mday := 1, tm_mon := 0,
    tm_year := 100, tm_wday := 0, tm_yday := 0, tm_isdst := 0 }

/- ── Generic byte and bit lemmas ────────────────────────────────────── -/

theorem testBit_ge_eight {x i : Nat} (hx : x < 256) (hi : 8 ≤ i) :
    x.testBit i = false :=
  Nat.testBit_lt_two_pow
    (lt_of_lt_of_le hx (le_trans (by norm_num) (Nat.pow_le_pow_right (by norm_num) hi)))

theorem and_mask_idem (m x : Nat) : (m &&& x) &&& m = m &&& x := by
  apply Nat.eq_of_testBit_eq
  intro i
  simp only [Nat.testBit_and]
  cases m.testBit i <;> cases x.testBit i <;> rfl

theorem and_eight_ne_zero_iff (x : Nat) : x &&& 8 ≠ 0 ↔ x.testBit 3 = true := by
  constructor
  · intro h
    obtain ⟨i, hi⟩ := Nat.ne_zero_implies_bit_true h
    rw [Nat.testBit_and, show (8 : Nat) = 2 ^ 3 by norm_num, Nat.testBit_two_pow] at hi
    obtain ⟨hx, hd⟩ := Bool.and_eq_true_iff.mp hi
    obtain rfl : 3 = i := by simpa using hd
    exact hx
  · intro h3 h0
    have h := Nat.testBit_and x 8 3
    rw [h0, h3] at h
    have h8 : (8 : Nat).testBit 3 = true := by decide
    rw [h8] at h
    simp at h

set_option maxRecDepth 4096 in
theorem and_comp8_eq {x : Nat} (hx : x < 256) (h : x &&& 8 = 0) :
    x &&& (255 ^^^ 8) = x := by
  have key : ∀ y, y < 256 → (y &&& 8 = 0 → y &&& (255 ^^^ 8) = y) := by decide
  exact key x hx h

set_option maxRecDepth 4096 in
theorem and_comp7_eq {x : Nat} (hx : x < 256) (h : x &&& 7 = 0) :
    x &&& (255 ^^^ 7) = x := by
  have key : ∀ y, y < 256 → (y &&& 7 = 0 → y &&& (255 ^^^ 7) = y) := by decide
  exact key x hx h

theorem os_bit_clear_of_masked (x : Nat) : (127 &&& x) &&& 128 = 0 := by
  apply Nat.eq_of_testBit_eq
  intro i
  simp only [Nat.testBit_and, Nat.zero_testBit]
  rw [show (127 : Nat) = 2 ^ 7 - 1 by norm_num, show (128 : Nat) = 2 ^ 7 by norm_num,
      Nat.testBit_two_pow_sub_one, Nat.testBit_two_pow]
  by_cases h : i < 7
  · have : 7 ≠ i := by omega
    simp [this]
  · simp [h]

set_option maxRecDepth 4096 in
theorem bcd_field_sec {x : Nat} (hx : x < 256) :
    (x &&& 15) + ((x &&& 112) >>> 4) * 10 = x % 16 + (x / 16 % 8) * 10 := by
  have key : ∀ y, y < 256 →
      (y &&& 15) + ((y &&& 112) >>> 4) * 10 = y % 16 + (y / 16 % 8) * 10 := by decide
  exact key x hx

set_option maxRecDepth 4096 in
theorem bcd_field_full {x : Nat} (hx : x < 256) :
    (x &&& 15) + ((x &&& 240) >>> 4) * 10 = x % 16 + (x / 16) * 10 := by
  have key : ∀ y, y < 256 →
      (y &&& 15) + ((y &&& 240) >>> 4) * 10 = y % 16 + (y / 16) * 10 := by decide
  exact key x hx

theorem yisleap_eq_one_iff (y : Nat) :
    yisleap y = 1 ↔ ((y % 4 = 0 ∧ y % 100 ≠ 0) ∨ y % 400 = 0) := by
  unfold yisleap
  split
  case isTrue h =>
    simp only [Bool.or_eq_true, Bool.and_eq_true, beq_iff_eq, bne_iff_ne] at h
    simpa using h
  case isFalse h =>
    simp only [Bool.or_eq_true, Bool.and_eq_true, beq_iff_eq, bne_iff_ne] at h
    simp only [show (0 : Nat) ≠ 1 by decide, false_iff]
    simpa using h

theorem yisleap_eq (y : Nat) :
    yisleap y = if (y % 4 = 0 ∧ y % 100 ≠ 0) ∨ y % 400 = 0 then 1 else 0 := by
  unfold yisleap
  by_cases h : (y % 4 = 0 ∧ y % 100 ≠ 0) ∨ y % 400 = 0
  · rw [if_pos h, if_pos]
    simpa using h
  · rw [if_neg h, if_neg]
    simpa using h

/- ── Claim theorems ─────────────────────────────────────────────────── -/

/-- C2: on a register image whose seconds byte has the oscillator-stop bit
set, `pcf85063a_get_time` returns `-EIO` (the ClockIntegrityError) and the
caller's output structure is returned unchanged — no field is written. -/
theorem get_time_integrity_error (raw : List Nat) (buf : Tm)
    (h : raw.getD 0 0 &&& PCF85063A_SECONDS_OS ≠ 0) :
    pcf85063a_get_time_c raw buf = (-eio_errno, buf) := by
  simp only [pcf85063a_get_time_c]
  rw [if_pos h]

theorem get_time_integrity_error_witness :
    (([128, 0, 0, 0, 0, 0, 0] : List Nat).getD 0 0 &&& PCF85063A_SECONDS_OS ≠ 0) ∧
      pcf85063a_get_time_c [128, 0, 0, 0, 0, 0, 0] tm0 = (-eio_errno, tm0) :=
  ⟨by decide, get_time_integrity_error [128, 0, 0, 0, 0, 0, 0] tm0 (by decide)⟩

/-- C5: `yisleap` returns 1 exactly on the reference leap-year rule
(divisible by 4 and not by 100, or divisible by 400); `get_yday` is the
0-based cumulative day count of the month per the reference month lengths
plus `day - 1`; March 1 of 2000 gives 60 and of 2001 gives 59. -/
theorem yday_reference_correct :
    (∀ y : Nat, yisleap y = 1 ↔ ((y % 4 = 0 ∧ y % 100 ≠ 0) ∨ y % 400 = 0)) ∧
    (∀ mon day year : Nat, mon < 12 → 1 ≤ day →
      get_yday mon day year =
        ((month_lengths_spec
            (decide ((year % 4 = 0 ∧ year % 100 ≠ 0) ∨ year % 400 = 0))).take mon).sum
          + day - 1) ∧
    get_yday 2 1 2000 = 60 ∧ get_yday 2 1 2001 = 59 := by
  refine ⟨yisleap_eq_one_iff, ?_, by decide, by decide⟩
  intro mon day year hmon hday
  by_cases hl : (year % 4 = 0 ∧ year % 100 ≠ 0) ∨ year % 400 = 0
  · have h1 : yisleap year = 1 := by rw [yisleap_eq, if_pos hl]
    rw [get_yday, h1, decide_eq_true hl]
    interval_cases mon <;>
      simp [days_table, month_lengths_spec, List.take, List.sum_cons, List.sum_nil]
  · have h0 : yisleap year = 0 := by rw [yisleap_eq, if_neg hl]
    rw [get_yday, h0, decide_eq_false hl]
    interval_cases mon <;>
      simp [days_table, month_lengths_spec, List.take, List.sum_cons, List.sum_nil]

theorem yday_reference_correct_witness :
    (2 : Nat) < 12 ∧ (1 : Nat) ≤ 1 ∧
      get_yday 2 1 2000 =
        ((month_lengths_spec
            (decide ((2000 % 4 = 0 ∧ 2000 % 100 ≠ 0) ∨ 2000 % 400 = 0))).take 2).sum
          + 1 - 1 :=
  ⟨by decide, by decide, yday_reference_correct.2.1 2 1 2000 (by decide) (by decide)⟩

/-- C9: a successful `pcf85063a_get_pending_int` issues exactly one bus
read (of control-2) and no write, leaves every register unchanged, and
returns 1 exactly when the timer-flag bit (bit 3) is set, 0 otherwise. -/
theorem get_pending_int_read_only (regs : Nat → Nat) :
    pcf85063a_get_pending_int_ops = [BusOp.readOp PCF85063A_CTRL2] ∧
    (∀ a, applyOps pcf85063a_get_pending_int_ops regs a = regs a) ∧
    (pcf85063a_get_pending_int regs = 1 ↔ (regs PCF85063A_CTRL2).testBit 3 = true) ∧
    (pcf85063a_get_pending_int regs = 0 ↔
      regs PCF85063A_CTRL2 &&& PCF85063A_CTRL2_TF = 0) := by
  refine ⟨rfl, fun a => rfl, ?_, ?_⟩
  · rw [← and_eight_ne_zero_iff]
    simp only [pcf85063a_get_pending_int, PCF85063A_CTRL2_TF]
    split
    case isTrue h => simpa using h
    case isFalse h => simpa using h
  · simp only [pcf85063a_get_pending_int, PCF85063A_CTRL2_TF]
    split
    case isTrue h => simpa using h
    case isFalse h => simpa using h

/-- C10: when the control-2 read fails, `pcf85063a_get_pending_int` returns
the negative errno converted to its unsigned 32-bit return type — for the
`-EIO` run that is 2^32 - 5, a nonzero value produced without the timer
flag ever being observed; only on a successful read is a nonzero return
equivalent to "timer flag set". -/
theorem get_pending_int_error_passthrough :
    pcf85063a_get_pending_int_r (Except.error (-eio_errno)) = 4294967291 ∧
    (4294967291 : Nat) ≠ 0 ∧ (4294967291 : Nat) ≠ 1 ∧
    (∀ reg : Nat, pcf85063a_get_pending_int_r (Except.ok reg) = 1 ↔
      reg &&& PCF85063A_CTRL2_TF ≠ 0) ∧
    (∀ reg : Nat, pcf85063a_get_pending_int_r (Except.ok reg) = 0 ↔
      reg &&& PCF85063A_CTRL2_TF = 0) := by
  refine ⟨by decide, by decide, by decide, ?_, ?_⟩ <;> intro reg <;>
    simp only [pcf85063a_get_pending_int_r] <;> split
  case isTrue h => simpa using h
  case isFalse h => simpa using h
  case isTrue h => simpa using h
  case isFalse h => simpa using h

/-- C4 (counterexample): the code does NOT use the spec's field-specific
upper decode masks.  On the image with minutes byte 0x80 and weekday byte
0x08, the code decodes minutes as 80 (full 4-bit tens nibble, no 7-bit
mask) and weekday as 8 (BCD decode, not a raw 3-bit count), while the
spec's formula gives 0 for both. -/
theorem get_time_decode_masks_counterexample :
    (pcf85063a_get_time_c [0, 128, 0, 1, 8, 0, 0] tm0).2.tm_min = 80 ∧
    (get_time_fields_spec [0, 128, 0, 1, 8, 0, 0]).tm_min = 0 ∧
    (pcf85063a_get_time_c [0, 128, 0, 1, 8, 0, 0] tm0).2.tm_wday = 8 ∧
    (get_time_fields_spec [0, 128, 0, 1, 8, 0, 0]).tm_wday = 0 ∧
    (pcf85063a_get_time_c [0, 128, 0, 1, 8, 0, 0] tm0).2 ≠
      get_time_fields_spec [0, 128, 0, 1, 8, 0, 0] := by
  refine ⟨by decide, by decide, by decide, by decide, by decide⟩

/-- C4 (amended): for every 7-byte register image (bytes below 256) whose
oscillator-stop bit is clear, `pcf85063a_get_time` decodes every BCD field
as lower nibble plus ten times the upper nibble, where only the SECONDS
byte's upper nibble is masked to 3 bits (0x70); minutes, hours, days,
weekday and months all use the full 4-bit upper nibble (0xf0), the weekday
byte being BCD-decoded like the others rather than taken as a raw 3-bit
count; the year adds 100. -/
theorem get_time_decode_fields (s m h d w mo y : Nat) (buf : Tm)
    (hs : s < 256) (hm : m < 256) (hh : h < 256) (hd : d < 256)
    (hw : w < 256) (hmo : mo < 256) (hy : y < 256)
    (hos : s &&& PCF85063A_SECONDS_OS = 0) :
    pcf85063a_get_time_c [s, m, h, d, w, mo, y] buf =
      (0, { tm_sec := s % 16 + s / 16 % 8 * 10,
            tm_min := m % 16 + m / 16 * 10,
            tm_hour := h % 16 + h / 16 * 10,
            tm_mday := d % 16 + d / 16 * 10,
            tm_mon := mo % 16 + mo / 16 * 10,
            tm_year := y % 16 + y / 16 * 10 + 100,
            tm_wday := w % 16 + w / 16 * 10,
            tm_yday := get_yday (mo % 16 + mo / 16 * 10) (d % 16 + d / 16 * 10)
              (y % 16 + y / 16 * 10 + 100 + 1900),
            tm_isdst := 0 }) := by
  simp only [pcf85063a_get_time_c, PCF85063A_SECONDS_OS, PCF85063A_BCD_LOWER_MASK,
    PCF85063A_BCD_UPPER_MASK, PCF85063A_BCD_UPPER_MASK_SEC, PCF85063A_BCD_UPPER_SHIFT,
    List.getD_cons_zero, List.getD_cons_succ]
  simp only [PCF85063A_SECONDS_OS] at hos
  rw [if_neg (not_ne_iff.mpr hos)]
  rw [bcd_field_sec hs, bcd_field_full hm, bcd_field_full hh, bcd_field_full hd,
      bcd_field_full hmo, bcd_field_full hy, bcd_field_full hw]

theorem get_time_decode_fields_witness :
    (89 : Nat) < 256 ∧ (128 : Nat) < 256 ∧ (35 : Nat) < 256 ∧ (49 : Nat) < 256 ∧
    (8 : Nat) < 256 ∧ (17 : Nat) < 256 ∧ (34 : Nat) < 256 ∧
    (89 : Nat) &&& PCF85063A_SECONDS_OS = 0 ∧
    pcf85063a_get_time_c [89, 128, 35, 49, 8, 17, 34] tm0 =
      (0, { tm_sec := 89 % 16 + 89 / 16 % 8 * 10,
            tm_min := 128 % 16 + 128 / 16 * 10,
            tm_hour := 35 % 16 + 35 / 16 * 10,
            tm_mday := 49 % 16 + 49 / 16 * 10,
            tm_mon := 17 % 16 + 17 / 16 * 10,
            tm_year := 34 % 16 + 34 / 16 * 10 + 100,
            tm_wday := 8 % 16 + 8 / 16 * 10,
            tm_yday := get_yday (17 % 16 + 17 / 16 * 10) (49 % 16 + 49 / 16 * 10)
              (34 % 16 + 34 / 16 * 10 + 100 + 1900),
            tm_isdst := 0 }) :=
  ⟨by decide, by decide, by decide, by decide, by decide, by decide, by decide, by decide,
    get_time_decode_fields 89 128 35 49 8 17 34 tm0 (by decide) (by decide) (by decide)
      (by decide) (by decide) (by decide) (by decide) (by decide)⟩

set_option maxRecDepth 4096 in
theorem roundtrip_sec : ∀ s, s < 60 →
    ((127 &&& ((s / 10) <<< 4 + s % 10)) &&& 15) +
      (((127 &&& ((s / 10) <<< 4 + s % 10)) &&& 112) >>> 4) * 10 = s := by decide

set_option maxRecDepth 4096 in
theorem roundtrip_min : ∀ m, m < 60 →
    ((127 &&& ((m / 10) <<< 4 + m % 10)) &&& 15) +
      (((127 &&& ((m / 10) <<< 4 + m % 10)) &&& 240) >>> 4) * 10 = m := by decide

set_option maxRecDepth 4096 in
theorem roundtrip_hour : ∀ h, h < 24 →
    ((63 &&& ((h / 10) <<< 4 + h % 10)) &&& 15) +
      (((63 &&& ((h / 10) <<< 4 + h % 10)) &&& 240) >>> 4) * 10 = h := by decide

set_option maxRecDepth 4096 in
theorem roundtrip_mday : ∀ d, d < 32 →
    ((63 &&& ((d / 10) <<< 4 + d % 10)) &&& 15) +
      (((63 &&& ((d / 10) <<< 4 + d % 10)) &&& 240) >>> 4) * 10 = d := by decide

set_option maxRecDepth 4096 in
theorem roundtrip_wday : ∀ w, w < 7 →
    ((7 &&& w) &&& 15) + (((7 &&& w) &&& 240) >>> 4) * 10 = w := by decide

set_option maxRecDepth 4096 in
theorem roundtrip_mon : ∀ mo, mo < 12 →
    ((31 &&& ((mo / 10) <<< 4 + mo % 10)) &&& 15) +
      (((31 &&& ((mo / 10) <<< 4 + mo % 10)) &&& 240) >>> 4) * 10 = mo := by decide

set_option maxRecDepth 4096 in
theorem roundtrip_year : ∀ y, y < 200 → 100 ≤ y →
    (((y % 100 / 10) <<< 4 + y % 100 % 10) &&& 15) +
      ((((y % 100 / 10) <<< 4 + y % 100 % 10) &&& 240) >>> 4) * 10 + 100 = y := by decide

/-- C1: encoding a valid calendar time with `pcf85063a_set_time`'s packing
and decoding the same 7 bytes with `pcf85063a_get_time`'s unpacking (the
simulated bus returning the written image) succeeds and reproduces every
field exactly, except `tm_yday`, which equals the table-derived value for
the decoded month, day and year (and `tm_isdst`, which the driver always
stores as 0). -/
theorem set_time_get_time_roundtrip (t : Tm) (buf : Tm)
    (hsec : t.tm_sec ≤ 59) (hmin : t.tm_min ≤ 59) (hhour : t.tm_hour ≤ 23)
    (hmday1 : 1 ≤ t.tm_mday) (hmday : t.tm_mday ≤ 31) (hwday : t.tm_wday ≤ 6)
    (hmon : t.tm_mon ≤ 11) (hyear1 : 100 ≤ t.tm_year) (hyear : t.tm_year ≤ 199) :
    pcf85063a_get_time_c (pcf85063a_set_time_raw t) buf =
      (0, { tm_sec := t.tm_sec, tm_min := t.tm_min, tm_hour := t.tm_hour,
            tm_mday := t.tm_mday, tm_mon := t.tm_mon, tm_year := t.tm_year,
            tm_wday := t.tm_wday,
            tm_yday := get_yday t.tm_mon t.tm_mday (t.tm_year + 1900),
            tm_isdst := 0 }) := by
  simp only [pcf85063a_set_time_raw, pcf85063a_get_time_c, PCF85063A_SECONDS_MASK,
    PCF85063A_MINUTES_MASK, PCF85063A_HOURS_MASK, PCF85063A_DAYS_MASK,
    PCF85063A_WEEKDAYS_MASK, PCF85063A_MONTHS_MASK, PCF85063A_SECONDS_OS,
    PCF85063A_BCD_LOWER_MASK, PCF85063A_BCD_UPPER_MASK, PCF85063A_BCD_UPPER_MASK_SEC,
    PCF85063A_BCD_UPPER_SHIFT, List.getD_cons_zero, List.getD_cons_succ]
  rw [if_neg (not_ne_iff.mpr (os_bit_clear_of_masked _))]
  rw [roundtrip_sec t.tm_sec (by omega), roundtrip_min t.tm_min (by omega),
      roundtrip_hour t.tm_hour (by omega), roundtrip_mday t.tm_mday (by omega),
      roundtrip_wday t.tm_wday (by omega), roundtrip_mon t.tm_mon (by omega),
      roundtrip_year t.tm_year (by omega) (by omega)]

theorem set_time_get_time_roundtrip_witness :
    (30 : Nat) ≤ 59 ∧ (45 : Nat) ≤ 59 ∧ (23 : Nat) ≤ 23 ∧ (1 : Nat) ≤ 31 ∧
    (31 : Nat) ≤ 31 ∧ (6 : Nat) ≤ 6 ∧ (11 : Nat) ≤ 11 ∧
    (100 : Nat) ≤ 122 ∧ (122 : Nat) ≤ 199 ∧
    pcf85063a_get_time_c
        (pcf85063a_set_time_raw ⟨30, 45, 23, 31, 11, 122, 6, 200, 1⟩) tm0 =
      (0, { tm_sec := 30, tm_min := 45, tm_hour := 23, tm_mday := 31,
            tm_mon := 11, tm_year := 122, tm_wday := 6,
            tm_yday := get_yday 11 31 (122 + 1900), tm_isdst := 0 }) :=
  ⟨by decide, by decide, by decide, by decide, by decide, by decide, by decide,
   by decide, by decide,
   set_time_get_time_roundtrip ⟨30, 45, 23, 31, 11, 122, 6, 200, 1⟩ tm0
     (by decide) (by decide) (by decide) (by decide) (by decide) (by decide)
     (by decide) (by decide) (by decide)⟩

theorem and_mask_idem' (x m : Nat) : (x &&& m) &&& m = x &&& m := by
  rw [Nat.and_comm x m, and_mask_idem]

/-- C6: for EVERY input calendar time (out-of-range field values included),
each byte `pcf85063a_set_time` transmits is confined to its field's
documented mask — 0x7f, 0x7f, 0x3f, 0x3f, 0x07, 0x1f for seconds, minutes,
hours, day-of-month, weekday and month, and the full 8-bit byte for the
years field. -/
theorem set_time_mask_confinement (t : Tm) :
    (pcf85063a_set_time_raw t).length = 7 ∧
    (pcf85063a_set_time_raw t).getD 0 0 &&& 0x7f = (pcf85063a_set_time_raw t).getD 0 0 ∧
    (pcf85063a_set_time_raw t).getD 1 0 &&& 0x7f = (pcf85063a_set_time_raw t).getD 1 0 ∧
    (pcf85063a_set_time_raw t).getD 2 0 &&& 0x3f = (pcf85063a_set_time_raw t).getD 2 0 ∧
    (pcf85063a_set_time_raw t).getD 3 0 &&& 0x3f = (pcf85063a_set_time_raw t).getD 3 0 ∧
    (pcf85063a_set_time_raw t).getD 4 0 &&& 0x07 = (pcf85063a_set_time_raw t).getD 4 0 ∧
    (pcf85063a_set_time_raw t).getD 5 0 &&& 0x1f = (pcf85063a_set_time_raw t).getD 5 0 ∧
    (pcf85063a_set_time_raw t).getD 6 0 &&& 0xff = (pcf85063a_set_time_raw t).getD 6 0 ∧
    (pcf85063a_set_time_raw t).getD 6 0 < 256 := by
  have hb : (t.tm_year % 100 / 10) <<< 4 + t.tm_year % 100 % 10 < 256 := by
    rw [Nat.shiftLeft_eq]
    have h1 : t.tm_year % 100 < 100 := Nat.mod_lt _ (by norm_num)
    have h2 : (2 : Nat) ^ 4 = 16 := by norm_num
    rw [h2]
    omega
  simp only [pcf85063a_set_time_raw, PCF85063A_SECONDS_MASK, PCF85063A_MINUTES_MASK,
    PCF85063A_HOURS_MASK, PCF85063A_DAYS_MASK, PCF85063A_WEEKDAYS_MASK,
    PCF85063A_MONTHS_MASK, PCF85063A_BCD_UPPER_SHIFT,
    List.getD_cons_zero, List.getD_cons_succ, List.length_cons, List.length_nil]
  refine ⟨trivial, and_mask_idem 127 _, and_mask_idem 127 _, and_mask_idem 63 _,
    and_mask_idem 63 _, and_mask_idem 7 _, and_mask_idem 31 _, ?_, hb⟩
  rw [show (255 : Nat) = 2 ^ 8 - 1 by norm_num]
  exact Nat.and_pow_two_sub_one_of_lt_two_pow (lt_of_lt_of_le hb (by norm_num))

theorem start_eff0 (regs : Nat → Nat) :
    applyOps pcf85063a_start_ops regs 0 = regs 0 &&& (255 ^^^ 32) := by
  simp [applyOps, pcf85063a_start_ops, List.foldl, applyOp, PCF85063A_CTRL1,
    PCF85063A_CTRL1_STOP]

theorem start_eff_ne (regs : Nat → Nat) {a : Nat} (ha : a ≠ 0) :
    applyOps pcf85063a_start_ops regs a = regs a := by
  simp [applyOps, pcf85063a_start_ops, List.foldl, applyOp, PCF85063A_CTRL1,
    PCF85063A_CTRL1_STOP, ha]

theorem stop_eff0 (regs : Nat → Nat) :
    applyOps pcf85063a_stop_ops regs 0 = (regs 0 &&& (255 ^^^ 32)) ||| 32 := by
  simp [applyOps, pcf85063a_stop_ops, List.foldl, applyOp, PCF85063A_CTRL1,
    PCF85063A_CTRL1_STOP]

theorem stop_eff_ne (regs : Nat → Nat) {a : Nat} (ha : a ≠ 0) :
    applyOps pcf85063a_stop_ops regs a = regs a := by
  simp [applyOps, pcf85063a_stop_ops, List.foldl, applyOp, PCF85063A_CTRL1,
    PCF85063A_CTRL1_STOP, ha]

set_option maxRecDepth 8192 in
theorem ctrl1_start_stop_bits : ∀ x, x < 256 →
    ((x &&& (255 ^^^ 32)).testBit 5 = false ∧
     ((x &&& (255 ^^^ 32)) ||| 32).testBit 5 = true ∧
     ∀ i, i < 8 → i ≠ 5 →
       ((x &&& (255 ^^^ 32)).testBit i = x.testBit i ∧
        ((x &&& (255 ^^^ 32)) ||| 32).testBit i = x.testBit i)) := by decide

/-- C7: `pcf85063a_start` and `pcf85063a_stop` each issue exactly one masked
read-modify-write of control-1 under the run/stop-bit mask (0x20), start
writing the bit clear and stop writing it set, touching no other bit of
control-1 and no other register; start-stop-start issues exactly those
three masked writes in order, and running start twice leaves the register
state after the second call identical to the state after the first. -/
theorem start_stop_masked_rmw (regs : Nat → Nat) (h : regs PCF85063A_CTRL1 < 256) :
    pcf85063a_start_ops = [BusOp.rmwOp 0 32 0] ∧
    pcf85063a_stop_ops = [BusOp.rmwOp 0 32 32] ∧
    pcf85063a_start_ops ++ pcf85063a_stop_ops ++ pcf85063a_start_ops =
      [BusOp.rmwOp 0 32 0, BusOp.rmwOp 0 32 32, BusOp.rmwOp 0 32 0] ∧
    (applyOps pcf85063a_start_ops regs 0).testBit 5 = false ∧
    (applyOps pcf85063a_stop_ops regs 0).testBit 5 = true ∧
    (∀ i, i ≠ 5 →
      (applyOps pcf85063a_start_ops regs 0).testBit i = (regs 0).testBit i) ∧
    (∀ i, i ≠ 5 →
      (applyOps pcf85063a_stop_ops regs 0).testBit i = (regs 0).testBit i) ∧
    (∀ a, a ≠ 0 → applyOps pcf85063a_start_ops regs a = regs a) ∧
    (∀ a, a ≠ 0 → applyOps pcf85063a_stop_ops regs a = regs a) ∧
    (∀ a, applyOps pcf85063a_start_ops (applyOps pcf85063a_start_ops regs) a =
      applyOps pcf85063a_start_ops regs a) := by
  simp only [PCF85063A_CTRL1] at h
  have hand : regs 0 &&& (255 ^^^ 32) < 256 :=
    Nat.and_lt_two_pow _ (by decide : (255 ^^^ 32 : Nat) < 2 ^ 8)
  have hor : (regs 0 &&& (255 ^^^ 32)) ||| 32 < 256 := by
    have h1 : regs 0 &&& (255 ^^^ 32) < 2 ^ 8 := lt_of_lt_of_le hand (by norm_num)
    have h2 : (32 : Nat) < 2 ^ 8 := by norm_num
    exact lt_of_lt_of_le (Nat.or_lt_two_pow h1 h2) (by norm_num)
  have hand' : regs 0 &&& (255 ^^^ 32) < 256 := hand
  obtain ⟨hb5, hb5', hpres⟩ := ctrl1_start_stop_bits (regs 0) h
  refine ⟨by decide, by decide, by decide, ?_, ?_, ?_, ?_, ?_, ?_, ?_⟩
  · rw [start_eff0]; exact hb5
  · rw [stop_eff0]; exact hb5'
  · intro i hi
    rw [start_eff0]
    by_cases h8 : i < 8
    · exact (hpres i h8 hi).1
    · rw [testBit_ge_eight hand (by omega), testBit_ge_eight h (by omega)]
  · intro i hi
    rw [stop_eff0]
    by_cases h8 : i < 8
    · exact (hpres i h8 hi).2
    · rw [testBit_ge_eight hor (by omega), testBit_ge_eight h (by omega)]
  · intro a ha; exact start_eff_ne regs ha
  · intro a ha; exact stop_eff_ne regs ha
  · intro a
    by_cases ha : a = 0
    · subst ha
      rw [start_eff0, start_eff0, and_mask_idem']
    · rw [start_eff_ne _ ha]

theorem start_stop_masked_rmw_witness :
    ((fun _ => (0 : Nat)) PCF85063A_CTRL1 < 256) ∧
    (applyOps pcf85063a_start_ops (fun _ => 0) 0).testBit 5 = false ∧
    (applyOps pcf85063a_stop_ops (fun _ => 0) 0).testBit 5 = true :=
  ⟨by decide,
   (start_stop_masked_rmw (fun _ => 0) (by decide)).2.2.2.1,
   (start_stop_masked_rmw (fun _ => 0) (by decide)).2.2.2.2.1⟩

theorem cancel_eff (regs : Nat → Nat) (a : Nat) :
    applyOps pcf85063a_cancel_alarm_ops regs a =
      if a = 17 then regs 17 &&& (255 ^^^ 7)
      else if a = 1 then regs 1 &&& (255 ^^^ 8)
      else regs a := by
  have hmask : (PCF85063A_TIMER_MODE_EN ||| PCF85063A_TIMER_MODE_INT_EN |||
      PCF85063A_TIMER_MODE_INT_TI_TP : Nat) = 7 := by decide
  simp only [applyOps, pcf85063a_cancel_alarm_ops, List.foldl, applyOp, hmask,
    PCF85063A_CTRL2, PCF85063A_CTRL2_TF, PCF85063A_TIMER_MODE]
  by_cases h17 : a = 17
  · subst h17; simp
  · by_cases h1 : a = 1
    · subst h1; simp
    · simp [h17, h1]

/-- C8: `pcf85063a_cancel_alarm` issues exactly a masked clear of the
control-2 timer-flag bit followed by one masked write clearing the
timer-enable, interrupt-enable and interrupt-type bits of timer-mode; when
the timer flag and those three mode bits are already clear, it leaves every
register value unchanged (idempotent no-op on peripheral state). -/
theorem cancel_alarm_noop (regs : Nat → Nat)
    (h2 : regs PCF85063A_CTRL2 < 256) (hm : regs PCF85063A_TIMER_MODE < 256)
    (hf : regs PCF85063A_CTRL2 &&& PCF85063A_CTRL2_TF = 0)
    (ht : regs PCF85063A_TIMER_MODE &&&
      (PCF85063A_TIMER_MODE_EN ||| PCF85063A_TIMER_MODE_INT_EN |||
        PCF85063A_TIMER_MODE_INT_TI_TP) = 0) :
    pcf85063a_cancel_alarm_ops = [BusOp.rmwOp 1 8 0, BusOp.rmwOp 17 7 0] ∧
    ∀ a, applyOps pcf85063a_cancel_alarm_ops regs a = regs a := by
  simp only [PCF85063A_CTRL2, PCF85063A_TIMER_MODE, PCF85063A_CTRL2_TF,
    show (PCF85063A_TIMER_MODE_EN ||| PCF85063A_TIMER_MODE_INT_EN |||
      PCF85063A_TIMER_MODE_INT_TI_TP : Nat) = 7 from by decide] at h2 hm hf ht
  refine ⟨by decide, ?_⟩
  intro a
  rw [cancel_eff]
  by_cases h17 : a = 17
  · rw [if_pos h17, h17, and_comp7_eq hm ht]
  · rw [if_neg h17]
    by_cases h1 : a = 1
    · rw [if_pos h1, h1, and_comp8_eq h2 hf]
    · rw [if_neg h1]

theorem cancel_alarm_noop_witness :
    ((fun _ => (0 : Nat)) PCF85063A_CTRL2 < 256) ∧
    ((fun _ => (0 : Nat)) PCF85063A_TIMER_MODE < 256) ∧
    ((fun _ => (0 : Nat)) PCF85063A_CTRL2 &&& PCF85063A_CTRL2_TF = 0) ∧
    ((fun _ => (0 : Nat)) PCF85063A_TIMER_MODE &&&
      (PCF85063A_TIMER_MODE_EN ||| PCF85063A_TIMER_MODE_INT_EN |||
        PCF85063A_TIMER_MODE_INT_TI_TP) = 0) ∧
    (pcf85063a_cancel_alarm_ops = [BusOp.rmwOp 1 8 0, BusOp.rmwOp 17 7 0] ∧
     ∀ a, applyOps pcf85063a_cancel_alarm_ops (fun _ => 0) a = (fun _ => (0 : Nat)) a) :=
  ⟨by decide, by decide, by decide, by decide,
   cancel_alarm_noop (fun _ => 0) (by decide) (by decide) (by decide) (by decide)⟩

theorem set_alarm_first_eff (regs : Nat → Nat) (ticks a : Nat) :
    applyOps ((pcf85063a_set_alarm_ops ticks).take 1) regs a =
      if a = 1 then regs 1 &&& (255 ^^^ 8) else regs a := by
  simp only [pcf85063a_set_alarm_ops, List.take, applyOps, List.foldl, applyOp,
    PCF85063A_CTRL2, PCF85063A_CTRL2_TF]
  by_cases h1 : a = 1
  · subst h1; simp
  · simp [h1]

theorem set_alarm_eff (regs : Nat → Nat) (ticks a : Nat) :
    applyOps (pcf85063a_set_alarm_ops ticks) regs a =
      if a = 17 then (regs 17 &&& (255 ^^^ 30)) ||| 22
      else if a = 16 then ticks % 256
      else if a = 1 then regs 1 &&& (255 ^^^ 8)
      else regs a := by
  have hmask : (PCF85063A_TIMER_MODE_FREQ_MASK ||| PCF85063A_TIMER_MODE_EN |||
      PCF85063A_TIMER_MODE_INT_EN : Nat) = 30 := by decide
  have hval : ((PCF85063A_TIMER_MODE_FREQ_1 <<< PCF85063A_TIMER_MODE_FREQ_SHIFT) |||
      PCF85063A_TIMER_MODE_EN ||| PCF85063A_TIMER_MODE_INT_EN : Nat) = 22 := by decide
  have h2230 : (22 &&& 30 : Nat) = 22 := by decide
  simp only [applyOps, pcf85063a_set_alarm_ops, List.foldl, applyOp, hmask, hval,
    PCF85063A_CTRL2, PCF85063A_CTRL2_TF, PCF85063A_TIMER_MODE, PCF85063A_TIMER_VALUE]
  by_cases h17 : a = 17
  · subst h17; simp [h2230]
  · by_cases h16 : a = 16
    · subst h16; simp
    · by_cases h1 : a = 1
      · subst h1; simp
      · simp [h17, h16, h1]

set_option maxRecDepth 8192 in
theorem ctrl2_flag_clear_bits : ∀ x, x < 256 →
    ((x &&& (255 ^^^ 8)) &&& 8 = 0 ∧
     ∀ i, i < 8 → i ≠ 3 → (x &&& (255 ^^^ 8)).testBit i = x.testBit i) := by decide

set_option maxRecDepth 8192 in
theorem timer_mode_bits : ∀ x, x < 256 →
    ((((x &&& (255 ^^^ 30)) ||| 22) >>> 3) &&& 3 = 2 ∧
     ((x &&& (255 ^^^ 30)) ||| 22) &&& 4 = 4 ∧
     ((x &&& (255 ^^^ 30)) ||| 22) &&& 2 = 2) := by decide

/-- C3: a successful `pcf85063a_set_alarm` issues exactly, in order: a
masked read-modify-write of control-2 clearing only the sticky timer-flag
bit (mask 0x08, value 0), a plain write of the tick count to the
timer-value register, and one masked read-modify-write of timer-mode (mask
0x1e, value 0x16) that selects the 1 Hz frequency (freq field = 2) and sets
timer-enable (0x04) and interrupt-enable (0x02) together; the flag clear
precedes the timer-mode write. -/
theorem set_alarm_transaction_sequence (regs : Nat → Nat) (ticks : Nat)
    (h2 : regs PCF85063A_CTRL2 < 256) (hm : regs PCF85063A_TIMER_MODE < 256) :
    pcf85063a_set_alarm_ops ticks =
      [BusOp.rmwOp 1 8 0, BusOp.writeOp 16 (ticks % 256), BusOp.rmwOp 17 30 22] ∧
    applyOps ((pcf85063a_set_alarm_ops ticks).take 1) regs 1 &&& 8 = 0 ∧
    (∀ i, i ≠ 3 →
      (applyOps ((pcf85063a_set_alarm_ops ticks).take 1) regs 1).testBit i =
        (regs 1).testBit i) ∧
    (∀ a, a ≠ 1 → applyOps ((pcf85063a_set_alarm_ops ticks).take 1) regs a = regs a) ∧
    applyOps (pcf85063a_set_alarm_ops ticks) regs 16 = ticks % 256 ∧
    (applyOps (pcf85063a_set_alarm_ops ticks) regs 17 >>> 3) &&& 3 =
      PCF85063A_TIMER_MODE_FREQ_1 ∧
    applyOps (pcf85063a_set_alarm_ops ticks) regs 17 &&& PCF85063A_TIMER_MODE_EN =
      PCF85063A_TIMER_MODE_EN ∧
    applyOps (pcf85063a_set_alarm_ops ticks) regs 17 &&& PCF85063A_TIMER_MODE_INT_EN =
      PCF85063A_TIMER_MODE_INT_EN := by
  simp only [PCF85063A_CTRL2, PCF85063A_TIMER_MODE] at h2 hm
  have hops : pcf85063a_set_alarm_ops ticks =
      [BusOp.rmwOp 1 8 0, BusOp.writeOp 16 (ticks % 256), BusOp.rmwOp 17 30 22] := by
    simp only [pcf85063a_set_alarm_ops, PCF85063A_CTRL2, PCF85063A_CTRL2_TF,
      PCF85063A_TIMER_VALUE, PCF85063A_TIMER_MODE,
      show (PCF85063A_TIMER_MODE_FREQ_MASK ||| PCF85063A_TIMER_MODE_EN |||
        PCF85063A_TIMER_MODE_INT_EN : Nat) = 30 from by decide,
      show ((PCF85063A_TIMER_MODE_FREQ_1 <<< PCF85063A_TIMER_MODE_FREQ_SHIFT) |||
        PCF85063A_TIMER_MODE_EN ||| PCF85063A_TIMER_MODE_INT_EN : Nat) = 22
        from by decide]
  obtain ⟨hfc, hfp⟩ := ctrl2_flag_clear_bits (regs 1) h2
  obtain ⟨hfreq, hen, hint⟩ := timer_mode_bits (regs 17) hm
  have hand : regs 1 &&& (255 ^^^ 8) < 256 :=
    Nat.and_lt_two_pow _ (by decide : (255 ^^^ 8 : Nat) < 2 ^ 8)
  refine ⟨hops, ?_, ?_, ?_, ?_, ?_, ?_, ?_⟩
  · rw [set_alarm_first_eff]; simpa using hfc
  · intro i hi
    rw [set_alarm_first_eff, if_pos rfl]
    by_cases h8 : i < 8
    · exact hfp i h8 hi
    · rw [testBit_ge_eight hand (by omega), testBit_ge_eight h2 (by omega)]
  · intro a ha
    rw [set_alarm_first_eff, if_neg ha]
  · rw [set_alarm_eff]; simp
  · rw [set_alarm_eff]; simpa [PCF85063A_TIMER_MODE_FREQ_1] using hfreq
  · rw [set_alarm_eff]; simpa [PCF85063A_TIMER_MODE_EN] using hen
  · rw [set_alarm_eff]; simpa [PCF85063A_TIMER_MODE_INT_EN] using hint

theorem set_alarm_transaction_sequence_witness :
    ((fun _ => (0 : Nat)) PCF85063A_CTRL2 < 256) ∧
    ((fun _ => (0 : Nat)) PCF85063A_TIMER_MODE < 256) ∧
    (pcf85063a_set_alarm_ops 200 =
      [BusOp.rmwOp 1 8 0, BusOp.writeOp 16 (200 % 256), BusOp.rmwOp 17 30 22] ∧
     applyOps ((pcf85063a_set_alarm_ops 200).take 1) (fun _ => 0) 1 &&& 8 = 0 ∧
     (∀ i, i ≠ 3 →
       (applyOps ((pcf85063a_set_alarm_ops 200).take 1) (fun _ => 0) 1).testBit i =
         ((fun _ => (0 : Nat)) 1).testBit i) ∧
     (∀ a, a ≠ 1 → applyOps ((pcf85063a_set_alarm_ops 200).take 1) (fun _ => 0) a =
       (fun _ => (0 : Nat)) a) ∧
     applyOps (pcf85063a_set_alarm_ops 200) (fun _ => 0) 16 = 200 % 256 ∧
     (applyOps (pcf85063a_set_alarm_ops 200) (fun _ => 0) 17 >>> 3) &&& 3 =
       PCF85063A_TIMER_MODE_FREQ_1 ∧
     applyOps (pcf85063a_set_alarm_ops 200) (fun _ => 0) 17 &&& PCF85063A_TIMER_MODE_EN =
       PCF85063A_TIMER_MODE_EN ∧
     applyOps (pcf85063a_set_alarm_ops 200) (fun _ => 0) 17 &&& PCF85063A_TIMER_MODE_INT_EN =
       PCF85063A_TIMER_MODE_INT_EN) :=
  ⟨by decide, by decide,
   set_alarm_transaction_sequence (fun _ => 0) 200 (by decide) (by decide)⟩
